import Mathlib

/-!
Shallow embedding of `manifest_loader.py` from the cbse-qa-generator-web
repository, together with theorems settling the specification claims about
its manifest lookup and question-block parsing logic.

Python strings are modelled as Lean `String`; the Python `str` methods used
by the source (`lower`, `strip`, `replace`, `split`, `startswith`, `int()`)
are given explicit executable models below (all-occurrence, non-overlapping,
left-to-right replacement, separator-keeping split, etc., matching CPython
semantics on the inputs the program handles).  A Python `ValueError` (raised
by `int()` on a non-numeric string) is modelled with `Except Unit`.
-/

namespace CbseQA

/-- Characters Python's `str.strip()` removes. -/
def isPyWhitespace (c : Char) : Bool :=
  c = ' ' || c = '\t' || c = '\n' || c = '\r' || c = '\x0b' || c = '\x0c'

/-- Model of Python `str.strip()` (whitespace on both ends). -/
def pyStrip (s : String) : String :=
  (((s.toList.dropWhile isPyWhitespace).reverse.dropWhile isPyWhitespace).reverse).asString

/-- Model of Python `str.strip('_')`. -/
def pyStripUnderscore (s : String) : String :=
  (((s.toList.dropWhile (· = '_')).reverse.dropWhile (· = '_')).reverse).asString

/-- Model of Python `str.lower()` (ASCII inputs). -/
def pyLower (s : String) : String :=
  (s.toList.map Char.toLower).asString

/-- Model of Python `str.startswith(pat)`. -/
def pyStartswith (s pat : String) : Bool :=
  pat.toList.isPrefixOf s.toList

/-- Left-to-right, non-overlapping replacement of `old` by `new`
(the behaviour of Python `str.replace` for a non-empty `old`).
The fuel is the length of the remaining input, which each step consumes. -/
def replaceAux (old new : List Char) : Nat → List Char → List Char
  | 0, l => l
  | _ + 1, [] => []
  | fuel + 1, c :: rest =>
    if old ≠ [] && old.isPrefixOf (c :: rest) then
      new ++ replaceAux old new fuel ((c :: rest).drop old.length)
    else
      c :: replaceAux old new fuel rest

/-- Model of Python `s.replace(old, new)` (all occurrences). -/
def pyReplace (s old new : String) : String :=
  (replaceAux old.toList new.toList s.toList.length s.toList).asString

/-- Separator-keeping split on a non-empty separator
(the behaviour of Python `s.split(sep)`): empty segments are kept. -/
def splitOnAux (sep : List Char) : Nat → List Char → List Char → List (List Char)
  | 0, acc, l => [acc.reverse ++ l]
  | _ + 1, acc, [] => [acc.reverse]
  | fuel + 1, acc, c :: rest =>
    if sep ≠ [] && sep.isPrefixOf (c :: rest) then
      acc.reverse :: splitOnAux sep fuel [] ((c :: rest).drop sep.length)
    else
      splitOnAux sep fuel (c :: acc) rest

/-- Model of Python `s.split(sep)` for a non-empty separator. -/
def pySplit (s sep : String) : List String :=
  (splitOnAux sep.toList s.toList.length [] s.toList).map List.asString

/-- Digits of a decimal literal, `none` when a non-digit appears or the list
is empty. -/
def digitsVal : List Char → Option Nat
  | [] => none
  | [c] => if c.isDigit then some (c.toNat - '0'.toNat) else none
  | c :: rest =>
    if c.isDigit then
      (digitsVal rest).map (fun n => (c.toNat - '0'.toNat) * 10 ^ rest.length + n)
    else none

/-- Model of Python `int(s)` on a string: optional surrounding whitespace,
optional single sign, then decimal digits; anything else raises `ValueError`
(modelled as `Except.error ()`). -/
def pyInt (s : String) : Except Unit Int :=
  let l := (s.toList.dropWhile isPyWhitespace).reverse.dropWhile isPyWhitespace |>.reverse
  match l with
  | '-' :: rest =>
    match digitsVal rest with
    | some n => .ok (-(n : Int))
    | none => .error ()
  | '+' :: rest =>
    match digitsVal rest with
    | some n => .ok (n : Int)
    | none => .error ()
  | _ =>
    match digitsVal l with
    | some n => .ok (n : Int)
    | none => .error ()

/-- The parsed question record built by `parse_question_block`
(`manifest_loader.py`, lines 262-274).  The Python dict is initialised with
exactly these keys and no branch of the parser adds a key, so a structure
with these fields is a faithful model; `Type` is rendered `Qtype` because
`Type` is not a legal field name in Lean. -/
structure Question where
  Qtype : String
  Text : String
  Answer : String
  Options : List String
  Marks : Int
  Difficulty : String
  Concept : String
  SourceText : String
  Events : List String
  ColumnA : List String
  ColumnB : List String
deriving Repr, DecidableEq

/-- The initial record of `parse_question_block` (lines 262-274). -/
def initQuestion (q_type : String) : Question :=
  { Qtype := q_type, Text := "", Answer := "", Options := [], Marks := 1,
    Difficulty := "Medium", Concept := "", SourceText := "",
    Events := [], ColumnA := [], ColumnB := [] }

/-- The `current_field` cursor of `parse_question_block`: `none0` models the
Python value `None`; the others are the strings the code assigns. -/
inductive CF where
  | none0 | text | answer | options | sourceText | events
deriving Repr, DecidableEq

structure BlockState where
  question : Question
  current_field : CF
deriving Repr, DecidableEq

/-- An `(A)`..`(D)` marker at the head of the character list, the zero-width
pattern of `re.split(r'(?=\([A-D]\))', ...)` in `parse_options`. -/
def isOptionMarkerAt : List Char → Bool
  | '(' :: c :: ')' :: _ => 'A' ≤ c && c ≤ 'D'
  | _ => false

/-- Split before every `([A-D])` marker position, the behaviour of
`re.split` with the zero-width lookahead pattern (a match at position 0
contributes a leading empty segment, as in CPython ≥ 3.7). -/
def splitBeforeMarkers : Nat → List Char → List Char → List (List Char)
  | 0, acc, l => [acc.reverse ++ l]
  | _ + 1, acc, [] => [acc.reverse]
  | fuel + 1, acc, c :: rest =>
    if isOptionMarkerAt (c :: rest) then
      acc.reverse :: splitBeforeMarkers fuel [c] rest
    else
      splitBeforeMarkers fuel (c :: acc) rest

/-- Model of `parse_options` (lines 321-335): split the text at option markers, keep
the stripped parts that start with `(`. -/
def parse_options (options_text : String) : List String :=
  if options_text = "" then []
  else
    let parts := splitBeforeMarkers options_text.toList.length [] options_text.toList
    parts.filterMap (fun p =>
      let p := pyStrip p.asString
      if p ≠ "" && pyStartswith p "(" then some p else none)

/-- One iteration of the line loop of `parse_question_block`
(lines 278-317).  The `Marks:` branch calls Python `int`, which raises on
non-numeric content (only the empty string is replaced by `'1'` through
`or '1'`); the raise is the only `Except.error` source.  Note that the
branches for `Type:`, `Marks:`, `Concept:` and `Difficulty:` leave
`current_field` unchanged. -/
def processLine (st : BlockState) (rawLine : String) : Except Unit BlockState :=
  let line := pyStrip rawLine
  if line = "" then .ok st
  else if pyStartswith line "Type:" then
    .ok { st with question.Qtype := pyStrip (pyReplace line "Type:" "") }
  else if pyStartswith line "Text:" then
    .ok { st with current_field := .text,
                  question.Text := pyStrip (pyReplace line "Text:" "") }
  else if pyStartswith line "Answer:" then
    .ok { st with current_field := .answer,
                  question.Answer := pyStrip (pyReplace line "Answer:" "") }
  else if pyStartswith line "Options:" then
    let options_text := pyStrip (pyReplace line "Options:" "")
    .ok { st with current_field := .options,
                  question.Options :=
                    if options_text ≠ "" then parse_options options_text
                    else st.question.Options }
  else if pyStartswith line "Marks:" then
    let s := pyStrip (pyReplace line "Marks:" "")
    match pyInt (if s = "" then "1" else s) with
    | .ok n => .ok { st with question.Marks := n }
    | .error e => .error e
  else if pyStartswith line "Concept:" then
    .ok { st with question.Concept := pyStrip (pyReplace line "Concept:" "") }
  else if pyStartswith line "Difficulty:" then
    .ok { st with question.Difficulty := pyStrip (pyReplace line "Difficulty:" "") }
  else if pyStartswith line "SourceText:" then
    .ok { st with current_field := .sourceText,
                  question.SourceText := pyStrip (pyReplace line "SourceText:" "") }
  else if pyStartswith line "Events:" then
    let events_text := pyStrip (pyReplace line "Events:" "")
    .ok { st with current_field := .events,
                  question.Events :=
                    if events_text ≠ "" then pySplit events_text "\n"
                    else st.question.Events }
  else
    match st.current_field with
    | .none0 => .ok st
    | .options =>
      if pyStartswith line "(" then
        .ok { st with question.Options := st.question.Options ++ [line] }
      else .ok st
    | .text => .ok { st with question.Text := st.question.Text ++ " " ++ line }
    | .answer => .ok { st with question.Answer := st.question.Answer ++ " " ++ line }
    | .sourceText =>
      .ok { st with question.SourceText := st.question.SourceText ++ " " ++ line }
    | .events =>
      -- Python `question['Events'] += ' ' + line` on a *list* extends it with
      -- the characters of the string, one single-character entry each.
      .ok { st with question.Events :=
              st.question.Events ++ ((" " ++ line).toList.map (fun c => String.mk [c])) }

def processLines : BlockState → List String → Except Unit BlockState
  | st, [] => .ok st
  | st, l :: ls =>
    match processLine st l with
    | .ok st' => processLines st' ls
    | .error e => .error e

/-- Model of `parse_question_block` (lines 258-319): split the block into lines, run
the line loop, return the record when `Text` is non-empty (truthiness of
`question.get('Text')`). -/
def parse_question_block (block : String) (q_type : String) :
    Except Unit (Option Question) :=
  match processLines ⟨initQuestion q_type, .none0⟩ (pySplit block "\n") with
  | .ok st => .ok (if st.question.Text ≠ "" then some st.question else none)
  | .error e => .error e

/-- The block loop of `parse_standard_questions` (lines 238-256): the `try`
wraps the whole loop, so an exception from one block returns the questions
accumulated so far and the remaining blocks are never parsed. -/
def parseBlocksLoop (q_type : String) : List String → List Question → List Question
  | [], acc => acc.reverse
  | b :: bs, acc =>
    if pyStrip b = "" then parseBlocksLoop q_type bs acc
    else
      match parse_question_block (pyStrip b) q_type with
      | .ok (some q) => parseBlocksLoop q_type bs (q :: acc)
      | .ok none => parseBlocksLoop q_type bs acc
      | .error _ => acc.reverse

/-- Model of `parse_standard_questions` (lines 234-256), on the file content (the
file read itself is I/O outside the model): split on `[QUESTION]`, skip the
first segment, parse each block. -/
def parse_standard_questions (content : String) (q_type : String) : List Question :=
  parseBlocksLoop q_type ((pySplit content "[QUESTION]").drop 1) []

/-- The replacement table of `normalize_name` (lines 86-101), in source
order: Python dicts iterate in insertion order, and the replacements are
applied sequentially. -/
def replacements : List (String × String) :=
  [("_and_", "_"), ("_of_", "_"), ("_the_", "_"), ("_in_", "_"),
   ("democratic_politics", "democratic_politics"),
   ("nationalism_in_india", "nationalism_in_india"),
   ("rise_of_nationalism_in_europe", "rise_of_nationalism_in_europe"),
   ("print_culture_and_the_modern_world", "print_culture_and_the_modern_world"),
   ("the_making_of_a_global_world", "the_making_of_a_global_world"),
   ("globalisation_and_the_indian_economy", "globalisation_and_the_indian_economy"),
   ("sectors_of_the_indian_economy", "sectors_of_the_indian_economy"),
   ("forest_and_wildlife_resources", "forest_and_wildlife_resources"),
   ("land_water_soil_and_natural_vegetation_resources",
    "land_water_soil_and_natural_vegetation_resources"),
   ("mineral_and_energy_resources", "mineral_and_energy_resources")]

/-- Model of `normalize_name` (lines 72-106). -/
def normalize_name (name : String) : String :=
  if name = "" then ""
  else
    let normalized := pyLower name
    let normalized := pyReplace normalized " " "_"
    let normalized := pyReplace normalized "-" "_"
    let normalized := pyReplace normalized "__" "_"
    let normalized :=
      replacements.foldl (fun acc p => pyReplace acc p.1 p.2) normalized
    pyStripUnderscore normalized

/-- Model of `names_match` (lines 108-110). -/
def names_match (name1 name2 : String) : Bool :=
  normalize_name name1 == normalize_name name2

/-- One row of an individual manifest (`{subject, lesson, file_path}`). -/
structure ManifestEntry where
  subject : String
  lesson : String
  file_path : String
deriving Repr, DecidableEq

/-- An individual manifest: a Python dict from opaque entry keys to entries,
modelled as an insertion-ordered association list. -/
abbrev Manifest := List (String × ManifestEntry)

/-- Association-list lookup, the model of Python `d[k]` / `k in d`. -/
def lookupDict {α : Type} (d : List (String × α)) (k : String) : Option α :=
  (d.find? (fun p => p.1 == k)).map (fun p => p.2)

/-- Python dict assignment `d[k] = v`: overwrite in place when the key is
present, append otherwise. -/
def dictInsert {α : Type} (d : List (String × α)) (k : String) (v : α) :
    List (String × α) :=
  if d.any (fun p => p.1 == k) then
    d.map (fun p => if p.1 == k then (k, v) else p)
  else d ++ [(k, v)]

/-- The loader state the claims need: the master manifest's `subjects` list
and the per-type individual manifests (a dict in insertion order). -/
structure ManifestLoader where
  master_subjects : List String
  individual_manifests : List (String × Manifest)

/-- Model of `load_individual_manifest` (lines 52-67) after the file I/O: `content`
is `some data` when the manifest file exists and parses, `none` when it is
absent on disk (the `else` branch stores an empty dict; the JSON-error
branch stores an empty dict likewise). -/
def load_individual_manifest (ml : ManifestLoader) (q_type : String)
    (content : Option Manifest) : ManifestLoader :=
  match content with
  | some data =>
    { ml with individual_manifests := dictInsert ml.individual_manifests q_type data }
  | none =>
    { ml with individual_manifests := dictInsert ml.individual_manifests q_type [] }

/-- Model of `find_matching_entry` (lines 112-125): first entry, in dict iteration
order, whose subject and lesson both fuzzy-match the targets. -/
def find_matching_entry (manifest_data : Manifest)
    (target_subject target_lesson : String) : Option ManifestEntry :=
  ((manifest_data.find? (fun p =>
      names_match p.2.subject target_subject &&
      names_match p.2.lesson target_lesson)).map (fun p => p.2))

/-- Insertion into a lexicographically sorted list of strings, for the model
of Python `sorted`. -/
def insertSorted (s : String) : List String → List String
  | [] => [s]
  | t :: ts => if s < t then s :: t :: ts else t :: insertSorted s ts

/-- Model of Python `sorted` on a list of strings. -/
def pySorted (l : List String) : List String :=
  l.foldl (fun acc s => insertSorted s acc) []

/-- Python `set.add`: keep one copy of each element. -/
def setAdd (l : List String) (s : String) : List String :=
  if l.contains s then l else l ++ [s]

/-- Model of `get_available_subjects` (lines 140-149): for a truthy, loaded question
type, the sorted set of non-empty subjects of its entries; otherwise the
master manifest's `subjects` list. -/
def get_available_subjects (ml : ManifestLoader) (q_type : Option String) :
    List String :=
  match q_type with
  | some t =>
    if t ≠ "" then
      match lookupDict ml.individual_manifests t with
      | some m =>
        pySorted (m.foldl (fun acc p =>
          if p.2.subject ≠ "" then setAdd acc p.2.subject else acc) [])
      | none => ml.master_subjects
    else ml.master_subjects
  | none => ml.master_subjects

/-- Model of `get_file_path` (lines 186-209): `None` when the type has no loaded
manifest or no entry matches; otherwise the matched entry's `file_path`
with a non-empty `data_qp/`-prefixed path rewritten via
`replace('data_qp/', 'data/')`. -/
def get_file_path (ml : ManifestLoader) (q_type subject lesson : String) :
    Option String :=
  match lookupDict ml.individual_manifests q_type with
  | none => none
  | some manifest =>
    match find_matching_entry manifest subject lesson with
    | some entry =>
      let file_path := entry.file_path
      some (if file_path ≠ "" ∧ pyStartswith file_path "data_qp/" = true then
              pyReplace file_path "data_qp/" "data/"
            else file_path)
    | none => none

/-! ### Helper lemmas shared by several claims -/

/-- Eliminating a successful block parse: a returned record is the question
of the final loop state, and its `Text` passed the truthiness check. -/
theorem parse_ok_some_elim (block q_type : String) (q : Question)
    (h : parse_question_block block q_type = .ok (some q)) :
    ∃ st, processLines ⟨initQuestion q_type, CF.none0⟩ (pySplit block "\n") = .ok st ∧
      st.question = q ∧ st.question.Text ≠ "" := by
  unfold parse_question_block at h
  cases hp : processLines ⟨initQuestion q_type, CF.none0⟩ (pySplit block "\n") with
  | error e => rw [hp] at h; exact (Except.noConfusion h)
  | ok st =>
    rw [hp] at h
    dsimp only at h
    by_cases ht : st.question.Text ≠ ""
    · rw [if_pos ht] at h
      injection h with h1
      injection h1 with h2
      exact ⟨st, rfl, h2, ht⟩
    · rw [if_neg ht] at h
      injection h with h1
      exact (Option.noConfusion h1)

theorem isPrefixOf_false_of_head_ne {s : List Char} {c1 c2 : Char} {t1 t2 : List Char}
    (h : (c1 :: t1).isPrefixOf s = true) (hne : c1 ≠ c2) :
    (c2 :: t2).isPrefixOf s = false := by
  cases s with
  | nil => simp [List.isPrefixOf] at h
  | cons a s =>
    simp only [List.isPrefixOf, Bool.and_eq_true, beq_iff_eq] at h
    obtain ⟨rfl, _⟩ := h
    simp only [List.isPrefixOf, Bool.and_eq_false_iff]
    exact Or.inl (by simp [hne.symm])

/-- Two field prefixes with different head characters cannot both match. -/
theorem pyStartswith_false_of_head_ne (s p1 p2 : String) (c1 c2 : Char)
    (t1 t2 : List Char) (hp1 : p1.toList = c1 :: t1) (hp2 : p2.toList = c2 :: t2)
    (hne : c1 ≠ c2) (h : pyStartswith s p1 = true) : pyStartswith s p2 = false := by
  unfold pyStartswith at h ⊢
  rw [hp1] at h
  rw [hp2]
  exact isPrefixOf_false_of_head_ne h hne

/-- A string starting with a non-empty pattern is non-empty. -/
theorem ne_empty_of_pyStartswith (s p : String) (c : Char) (t : List Char)
    (hp : p.toList = c :: t) (h : pyStartswith s p = true) : s ≠ "" := by
  intro hs
  subst hs
  unfold pyStartswith at h
  rw [hp] at h
  simp [List.isPrefixOf] at h

/-- The two-block file of the spec's parsing example. -/
def exampleFileC1 : String :=
  "[QUESTION]\nText: What is federalism?\nAnswer: A system of government\nMarks: 2\n[QUESTION]\nText: hi\n"

/-! ### C1 -/

/-- C1, counterexample: parsing the spec-example file yields TWO questions,
the second with `Text = "hi"` of length 2 < 10; the claimed minimum-length
filter does not exist in `parse_question_block` (line 319 checks only
truthiness of `Text`). -/
theorem c1_counterexample :
    (parse_standard_questions exampleFileC1 "mcq").map Question.Text =
      ["What is federalism?", "hi"] ∧ ("hi" : String).length < 10 := by
  constructor
  · rfl
  · decide

/-- C1, amended: a parsed block yields no `Question` only when its assembled
`Text` is empty; non-empty `Text` shorter than 10 characters is NOT dropped,
and the spec's example file yields exactly two questions, the first with
`Text = "What is federalism?"`, `Answer = "A system of government"`,
`Marks = 2`, the second with `Text = "hi"`. -/
theorem c1_amended :
    (∀ (block q_type : String) (q : Question),
      parse_question_block block q_type = .ok (some q) → q.Text ≠ "") ∧
    parse_standard_questions exampleFileC1 "mcq" =
      [{ initQuestion "mcq" with Text := "What is federalism?",
                                 Answer := "A system of government", Marks := 2 },
       { initQuestion "mcq" with Text := "hi" }] := by
  constructor
  · intro block q_type q h
    obtain ⟨st, _, hq, ht⟩ := parse_ok_some_elim block q_type q h
    exact hq ▸ ht
  · rfl

/-- C1, witness for the amended theorem's hypothesis. -/
theorem c1_witness :
    ({ initQuestion "mcq" with Text := "What is federalism?" } : Question).Text ≠ "" :=
  c1_amended.1 "Text: What is federalism?" "mcq"
    { initQuestion "mcq" with Text := "What is federalism?" } rfl

/-! ### C2 -/

/-- C2, counterexample: a `Marks:` line with value `"two"` makes the block
parser raise a `ValueError` (`int("two")`), rather than yielding a record
with `Marks = 1`. -/
theorem c2_counterexample :
    parse_question_block "Text: What is the capital of France?\nMarks: two" "mcq" =
      Except.error () := rfl

/-- C2, amended: only an EMPTY `Marks:` value falls back to 1 (through
`or '1'`); a numeric value is parsed; a non-numeric non-empty value raises a
`ValueError`, which escapes `parse_question_block`. -/
theorem c2_amended :
    parse_question_block "Text: What is the capital of France?\nMarks:" "mcq" =
      .ok (some { initQuestion "mcq" with
                    Text := "What is the capital of France?", Marks := 1 }) ∧
    parse_question_block "Text: What is the capital of France?\nMarks: 5" "mcq" =
      .ok (some { initQuestion "mcq" with
                    Text := "What is the capital of France?", Marks := 5 }) ∧
    parse_question_block "Text: What is the capital of France?\nMarks: two" "mcq" =
      Except.error () := by
  exact ⟨rfl, rfl, rfl⟩

/-! ### C5 -/

/-- C5, counterexample: a repeated `Options` continuation line yields a
repeated entry — the resulting sequence is not duplicate-free. -/
theorem c5_counterexample :
    parse_question_block
        "Text: What is federalism?\nOptions: (A) First\n(B) Second\n(B) Second" "mcq" =
      .ok (some { initQuestion "mcq" with
                    Text := "What is federalism?",
                    Options := ["(A) First", "(B) Second", "(B) Second"] }) ∧
    ¬ (["(A) First", "(B) Second", "(B) Second"] : List String).Nodup := by
  constructor
  · rfl
  · decide

/-- C5, amended: the `Options` sequence of the example block is exactly
`["(A) First", "(B) Second", "(C) Third"]` in order; but duplicates are NOT
removed — a repeated continuation line contributes one entry per occurrence. -/
theorem c5_amended :
    parse_question_block
        "Text: What is federalism?\nOptions: (A) First\n(B) Second\n(C) Third" "mcq" =
      .ok (some { initQuestion "mcq" with
                    Text := "What is federalism?",
                    Options := ["(A) First", "(B) Second", "(C) Third"] }) ∧
    parse_question_block
        "Text: What is federalism?\nOptions: (A) First\n(B) Second\n(B) Second" "mcq" =
      .ok (some { initQuestion "mcq" with
                    Text := "What is federalism?",
                    Options := ["(A) First", "(B) Second", "(B) Second"] }) := ⟨rfl, rfl⟩

/-! ### C8 -/

/-- C8: evaluating the code at the failing input.  While the cursor is on
`Events`, the continuation branch executes `question['Events'] += ' ' + line`
on a LIST, which extends it with one single-character entry per character of
`' ' + line` — not with the line as one new whole-line entry. -/
theorem c8_events_char_extension :
    parse_question_block "Text: What is federalism?\nEvents: first event\nsecond event"
        "chronology" =
      .ok (some { initQuestion "chronology" with
                    Text := "What is federalism?",
                    Events := ["first event", " ", "s", "e", "c", "o", "n", "d",
                               " ", "e", "v", "e", "n", "t"] }) := rfl

/-! ### C9 -/

/-- C9: parsing is deterministic — the parsing pipeline is a pure function
of the file content and question type (the Python code touches no state
outside locals and uses no randomness), so byte-for-byte identical inputs
give identical question sequences. -/
theorem c9_deterministic (content1 content2 q_type : String)
    (h : content1 = content2) :
    parse_standard_questions content1 q_type = parse_standard_questions content2 q_type := by
  rw [h]

/-- C9, witness. -/
theorem c9_witness :
    parse_standard_questions exampleFileC1 "mcq" =
      parse_standard_questions exampleFileC1 "mcq" :=
  c9_deterministic exampleFileC1 exampleFileC1 "mcq" rfl

/-! ### C6 -/

/-- The manifest entry of the spec's `resolvePath` example. -/
def entryC6 : ManifestEntry :=
  { subject := "History", lesson := "Nationalism in India",
    file_path := "data_qp/history/nat.txt" }

/-- A loader state holding only the example entry under type `assertion`. -/
def mlC6 : ManifestLoader :=
  { master_subjects := [],
    individual_manifests := [("assertion", [("entry_1", entryC6)])] }

/-- C6: `get_file_path` returns the matched entry's `file_path` with a
`data_qp/` prefix rewritten to `data/` (general part), name matching
tolerates the example's case and separator variants, and on the example
manifest the lookup returns `"data/history/nat.txt"`. -/
theorem c6_resolve_path :
    (∀ (ml : ManifestLoader) (q_type subject lesson : String)
       (m : Manifest) (e : ManifestEntry),
      lookupDict ml.individual_manifests q_type = some m →
      find_matching_entry m subject lesson = some e →
      e.file_path ≠ "" →
      pyStartswith e.file_path "data_qp/" = true →
      get_file_path ml q_type subject lesson =
        some (pyReplace e.file_path "data_qp/" "data/")) ∧
    names_match "History" "history" = true ∧
    names_match "Nationalism in India" "Nationalism_in_India" = true ∧
    get_file_path mlC6 "assertion" "history" "Nationalism_in_India" =
      some "data/history/nat.txt" := by
  refine ⟨?_, rfl, rfl, rfl⟩
  intro ml q_type subject lesson m e h1 h2 h3 h4
  unfold get_file_path
  rw [h1]
  dsimp only
  rw [h2]
  dsimp only
  rw [if_pos ⟨h3, h4⟩]

/-- C6, witness for the general part, applied at the example manifest. -/
theorem c6_witness :
    get_file_path mlC6 "assertion" "history" "Nationalism_in_India" =
      some (pyReplace "data_qp/history/nat.txt" "data_qp/" "data/") :=
  c6_resolve_path.1 mlC6 "assertion" "history" "Nationalism_in_India"
    [("entry_1", entryC6)] entryC6 rfl rfl (by decide) rfl

/-! ### C7 -/

theorem lookupDict_dictInsert {α : Type} (d : List (String × α)) (k : String) (v : α) :
    lookupDict (dictInsert d k v) k = some v := by
  unfold dictInsert
  split
  · next hany =>
    induction d with
    | nil => simp at hany
    | cons p d ih =>
      simp only [List.any_cons, Bool.or_eq_true] at hany
      by_cases hp : (p.1 == k) = true
      · simp [lookupDict, List.find?, hp]
      · rcases hany with hany | hany
        · exact absurd hany hp
        · simpa [lookupDict, List.find?, hp] using ih hany
  · next hany =>
    induction d with
    | nil => simp [lookupDict, List.find?]
    | cons p d ih =>
      simp only [List.any_cons, Bool.or_eq_true, not_or] at hany
      obtain ⟨hp, hd⟩ := hany
      have hp' : (p.1 == k) = false := by
        cases hpk : (p.1 == k) with
        | true => exact absurd hpk hp
        | false => rfl
      simpa [lookupDict, List.find?, hp'] using ih hd

/-- C7: after loading an absent individual manifest file (the `else` branch
of `load_individual_manifest` stores an empty dict for the type), the
subject listing for that type is empty and every path lookup for it returns
`None`, with no exception modelled anywhere on these paths. -/
theorem c7_absent_manifest_degrades (ml : ManifestLoader) (q_type : String)
    (hq : q_type ≠ "") :
    get_available_subjects (load_individual_manifest ml q_type none) (some q_type) = [] ∧
    ∀ subject lesson,
      get_file_path (load_individual_manifest ml q_type none) q_type subject lesson =
        none := by
  have hlk : lookupDict (load_individual_manifest ml q_type none).individual_manifests
      q_type = some ([] : Manifest) :=
    lookupDict_dictInsert ml.individual_manifests q_type []
  constructor
  · unfold get_available_subjects
    dsimp only
    rw [if_pos hq, hlk]
    rfl
  · intro subject lesson
    unfold get_file_path
    rw [hlk]
    rfl

/-- C7, witness at a concrete loader state and lookup. -/
theorem c7_witness :
    get_available_subjects
        (load_individual_manifest ⟨["History"], []⟩ "mcq" none) (some "mcq") = [] ∧
    get_file_path (load_individual_manifest ⟨["History"], []⟩ "mcq" none)
        "mcq" "History" "Nationalism in India" = none :=
  ⟨(c7_absent_manifest_degrades ⟨["History"], []⟩ "mcq" (by decide)).1,
   (c7_absent_manifest_degrades ⟨["History"], []⟩ "mcq" (by decide)).2
     "History" "Nationalism in India"⟩

/-! ### C3 -/

/-- Whether a block makes the block parser raise (the only raising path is
`int()` on a non-numeric, non-empty `Marks:` value). -/
def blockRaises (q_type b : String) : Bool :=
  match parse_question_block (pyStrip b) q_type with
  | .ok _ => false
  | .error _ => true

/-- The contribution of one segment to the output list: nothing for a blank
segment or a dropped block, the parsed record otherwise. -/
def blockResult (q_type b : String) : Option Question :=
  if pyStrip b = "" then none
  else
    match parse_question_block (pyStrip b) q_type with
    | .ok o => o
    | .error _ => none

/-- When no block raises, the loop of `parse_standard_questions` treats the
blocks independently: each contributes exactly its own `blockResult`. -/
theorem parseBlocksLoop_no_raise (q_type : String) :
    ∀ (bs : List String) (acc : List Question),
      (∀ b ∈ bs, blockRaises q_type b = false) →
      parseBlocksLoop q_type bs acc =
        acc.reverse ++ bs.filterMap (blockResult q_type) := by
  intro bs
  induction bs with
  | nil => intro acc _; simp [parseBlocksLoop]
  | cons b bs ih =>
    intro acc hall
    have hb := hall b (List.mem_cons_self b bs)
    have htail : ∀ x ∈ bs, blockRaises q_type x = false :=
      fun x hx => hall x (List.mem_cons_of_mem b hx)
    by_cases hsb : pyStrip b = ""
    · simp only [parseBlocksLoop, if_pos hsb]
      rw [ih acc htail]
      simp [List.filterMap_cons, blockResult, hsb]
    · simp only [parseBlocksLoop, if_neg hsb]
      cases hpb : parse_question_block (pyStrip b) q_type with
      | ok o =>
        cases o with
        | some q =>
          dsimp only
          rw [ih (q :: acc) htail]
          simp [List.filterMap_cons, blockResult, hsb, hpb]
        | none =>
          dsimp only
          rw [ih acc htail]
          simp [List.filterMap_cons, blockResult, hsb, hpb]
      | error e =>
        unfold blockRaises at hb
        rw [hpb] at hb
        exact Bool.noConfusion hb

/-- A two-block file whose first block raises (non-numeric `Marks:`). -/
def fileC3 : String :=
  "[QUESTION]\nText: first valid question text\nMarks: two\n[QUESTION]\nText: second valid question text\n"

/-- A three-block file whose middle block raises. -/
def fileC3abort : String :=
  "[QUESTION]\nText: first valid question text\n[QUESTION]\nText: questionable middle one\nMarks: two\n[QUESTION]\nText: third valid question text\n"

/-- C3, counterexample: in `fileC3` the second block is well-formed, yet the
returned list is empty — the first block's `ValueError` is caught only at
file level (the `try` in `parse_standard_questions` wraps the whole loop),
aborting the parsing of every later sibling. -/
theorem c3_counterexample :
    parse_standard_questions fileC3 "mcq" = [] ∧
    parse_question_block "Text: second valid question text" "mcq" =
      .ok (some { initQuestion "mcq" with Text := "second valid question text" }) :=
  ⟨rfl, rfl⟩

set_option maxRecDepth 16384 in
/-- C3, amended: blocks that merely fail validation (empty `Text`, blank
segment) are dropped independently and siblings are unaffected; but a block
that raises (non-numeric `Marks:`) aborts the loop — earlier blocks' records
are kept, later blocks are never parsed. -/
theorem c3_amended :
    (∀ (q_type content : String),
      (∀ b ∈ (pySplit content "[QUESTION]").drop 1, blockRaises q_type b = false) →
      parse_standard_questions content q_type =
        ((pySplit content "[QUESTION]").drop 1).filterMap (blockResult q_type)) ∧
    parse_standard_questions fileC3abort "mcq" =
      [{ initQuestion "mcq" with Text := "first valid question text" }] := by
  refine ⟨?_, rfl⟩
  intro q_type content hall
  unfold parse_standard_questions
  simpa using parseBlocksLoop_no_raise q_type ((pySplit content "[QUESTION]").drop 1) [] hall

/-- C3, witness for the amended theorem's hypothesis, at the spec's
two-block example file (no block of it raises). -/
theorem c3_witness :
    parse_standard_questions exampleFileC1 "mcq" =
      ((pySplit exampleFileC1 "[QUESTION]").drop 1).filterMap (blockResult "mcq") :=
  c3_amended.1 "mcq" exampleFileC1 (by decide)

/-! ### C4 -/

/-- C4, counterexample: after `Text:` and then a `Marks:` line, an
unprefixed line is still appended to `Text` — the `Marks:` branch does not
clear the cursor (lines 284-302 never assign `current_field`), so the
continuation line is not ignored. -/
theorem c4_counterexample :
    parse_question_block "Text: What is federalism?\nMarks: 2\ncontinuation bit" "mcq" =
      .ok (some { initQuestion "mcq" with
                    Text := "What is federalism? continuation bit", Marks := 2 }) ∧
    ("What is federalism? continuation bit" : String) ≠ "What is federalism?" :=
  ⟨rfl, by decide⟩

/-- C4, amended: a line carrying a single-value field prefix (`Type:`,
`Marks:`, `Concept:`, `Difficulty:`) leaves the current-field cursor
UNCHANGED (it does not clear it to `None`), so a subsequent unprefixed line
continues whichever continuation field was active before, and is ignored
only when no continuation field had been activated yet. -/
theorem c4_amended (st : BlockState) (line : String)
    (h : pyStartswith (pyStrip line) "Type:" = true ∨
         pyStartswith (pyStrip line) "Marks:" = true ∨
         pyStartswith (pyStrip line) "Concept:" = true ∨
         pyStartswith (pyStrip line) "Difficulty:" = true)
    (st' : BlockState) (hok : processLine st line = .ok st') :
    st'.current_field = st.current_field := by
  unfold processLine at hok
  rcases h with h | h | h | h
  · have h0 : pyStrip line ≠ "" := ne_empty_of_pyStartswith _ _ 'T' _ rfl h
    rw [if_neg h0, if_pos h] at hok
    injection hok with hok
    subst hok
    rfl
  · have h0 : pyStrip line ≠ "" := ne_empty_of_pyStartswith _ _ 'M' _ rfl h
    have e1 : pyStartswith (pyStrip line) "Type:" = false :=
      pyStartswith_false_of_head_ne _ _ _ 'M' 'T' _ _ rfl rfl (by decide) h
    have e2 : pyStartswith (pyStrip line) "Text:" = false :=
      pyStartswith_false_of_head_ne _ _ _ 'M' 'T' _ _ rfl rfl (by decide) h
    have e3 : pyStartswith (pyStrip line) "Answer:" = false :=
      pyStartswith_false_of_head_ne _ _ _ 'M' 'A' _ _ rfl rfl (by decide) h
    have e4 : pyStartswith (pyStrip line) "Options:" = false :=
      pyStartswith_false_of_head_ne _ _ _ 'M' 'O' _ _ rfl rfl (by decide) h
    rw [if_neg h0, if_neg (by simp [e1]), if_neg (by simp [e2]),
        if_neg (by simp [e3]), if_neg (by simp [e4]), if_pos h] at hok
    dsimp only at hok
    split at hok
    · injection hok with hok; subst hok; rfl
    · exact Except.noConfusion hok
  · have h0 : pyStrip line ≠ "" := ne_empty_of_pyStartswith _ _ 'C' _ rfl h
    have e1 : pyStartswith (pyStrip line) "Type:" = false :=
      pyStartswith_false_of_head_ne _ _ _ 'C' 'T' _ _ rfl rfl (by decide) h
    have e2 : pyStartswith (pyStrip line) "Text:" = false :=
      pyStartswith_false_of_head_ne _ _ _ 'C' 'T' _ _ rfl rfl (by decide) h
    have e3 : pyStartswith (pyStrip line) "Answer:" = false :=
      pyStartswith_false_of_head_ne _ _ _ 'C' 'A' _ _ rfl rfl (by decide) h
    have e4 : pyStartswith (pyStrip line) "Options:" = false :=
      pyStartswith_false_of_head_ne _ _ _ 'C' 'O' _ _ rfl rfl (by decide) h
    have e5 : pyStartswith (pyStrip line) "Marks:" = false :=
      pyStartswith_false_of_head_ne _ _ _ 'C' 'M' _ _ rfl rfl (by decide) h
    rw [if_neg h0, if_neg (by simp [e1]), if_neg (by simp [e2]),
        if_neg (by simp [e3]), if_neg (by simp [e4]), if_neg (by simp [e5]),
        if_pos h] at hok
    injection hok with hok
    subst hok
    rfl
  · have h0 : pyStrip line ≠ "" := ne_empty_of_pyStartswith _ _ 'D' _ rfl h
    have e1 : pyStartswith (pyStrip line) "Type:" = false :=
      pyStartswith_false_of_head_ne _ _ _ 'D' 'T' _ _ rfl rfl (by decide) h
    have e2 : pyStartswith (pyStrip line) "Text:" = false :=
      pyStartswith_false_of_head_ne _ _ _ 'D' 'T' _ _ rfl rfl (by decide) h
    have e3 : pyStartswith (pyStrip line) "Answer:" = false :=
      pyStartswith_false_of_head_ne _ _ _ 'D' 'A' _ _ rfl rfl (by decide) h
    have e4 : pyStartswith (pyStrip line) "Options:" = false :=
      pyStartswith_false_of_head_ne _ _ _ 'D' 'O' _ _ rfl rfl (by decide) h
    have e5 : pyStartswith (pyStrip line) "Marks:" = false :=
      pyStartswith_false_of_head_ne _ _ _ 'D' 'M' _ _ rfl rfl (by decide) h
    have e6 : pyStartswith (pyStrip line) "Concept:" = false :=
      pyStartswith_false_of_head_ne _ _ _ 'D' 'C' _ _ rfl rfl (by decide) h
    rw [if_neg h0, if_neg (by simp [e1]), if_neg (by simp [e2]),
        if_neg (by simp [e3]), if_neg (by simp [e4]), if_neg (by simp [e5]),
        if_neg (by simp [e6]), if_pos h] at hok
    injection hok with hok
    subst hok
    rfl

/-- C4, witness: a `Marks: 2` line processed while the cursor is on `Text`
leaves the cursor on `Text`. -/
theorem c4_witness :
    (⟨{ initQuestion "mcq" with Marks := 2 }, CF.text⟩ : BlockState).current_field =
      (⟨initQuestion "mcq", CF.text⟩ : BlockState).current_field :=
  c4_amended ⟨initQuestion "mcq", CF.text⟩ "Marks: 2" (Or.inr (Or.inl rfl))
    ⟨{ initQuestion "mcq" with Marks := 2 }, CF.text⟩ rfl

/-! ### C10 -/

/-- One-line preservation facts for `parse_question_block`'s loop body: the
`ColumnA`/`ColumnB` fields are never written; every other field is written
only by a line carrying its own prefix or — for the continuation-capable
fields — while the cursor points at that field, and only that field's own
prefix line can point the cursor at it. -/
theorem processLine_step (st st' : BlockState) (l : String)
    (h : processLine st l = .ok st') :
    st'.question.ColumnA = st.question.ColumnA ∧
    st'.question.ColumnB = st.question.ColumnB ∧
    (pyStartswith (pyStrip l) "Type:" = false →
      st'.question.Qtype = st.question.Qtype) ∧
    (pyStartswith (pyStrip l) "Marks:" = false →
      st'.question.Marks = st.question.Marks) ∧
    (pyStartswith (pyStrip l) "Concept:" = false →
      st'.question.Concept = st.question.Concept) ∧
    (pyStartswith (pyStrip l) "Difficulty:" = false →
      st'.question.Difficulty = st.question.Difficulty) ∧
    (pyStartswith (pyStrip l) "Answer:" = false → st.current_field ≠ CF.answer →
      st'.question.Answer = st.question.Answer ∧ st'.current_field ≠ CF.answer) ∧
    (pyStartswith (pyStrip l) "Options:" = false → st.current_field ≠ CF.options →
      st'.question.Options = st.question.Options ∧ st'.current_field ≠ CF.options) ∧
    (pyStartswith (pyStrip l) "SourceText:" = false → st.current_field ≠ CF.sourceText →
      st'.question.SourceText = st.question.SourceText ∧
        st'.current_field ≠ CF.sourceText) ∧
    (pyStartswith (pyStrip l) "Events:" = false → st.current_field ≠ CF.events →
      st'.question.Events = st.question.Events ∧ st'.current_field ≠ CF.events) := by
  unfold processLine at h
  dsimp only at h
  by_cases c0 : pyStrip l = ""
  · rw [if_pos c0] at h
    injection h with h'
    subst h'
    exact ⟨rfl, rfl, fun _ => rfl, fun _ => rfl, fun _ => rfl, fun _ => rfl,
      fun _ h2 => ⟨rfl, h2⟩, fun _ h2 => ⟨rfl, h2⟩, fun _ h2 => ⟨rfl, h2⟩,
      fun _ h2 => ⟨rfl, h2⟩⟩
  rw [if_neg c0] at h
  by_cases c1 : pyStartswith (pyStrip l) "Type:" = true
  · rw [if_pos c1] at h
    injection h with h'
    subst h'
    exact ⟨rfl, rfl, fun hf => absurd c1 (by simp [hf]), fun _ => rfl, fun _ => rfl,
      fun _ => rfl, fun _ h2 => ⟨rfl, h2⟩, fun _ h2 => ⟨rfl, h2⟩,
      fun _ h2 => ⟨rfl, h2⟩, fun _ h2 => ⟨rfl, h2⟩⟩
  rw [if_neg c1] at h
  by_cases c2 : pyStartswith (pyStrip l) "Text:" = true
  · rw [if_pos c2] at h
    injection h with h'
    subst h'
    exact ⟨rfl, rfl, fun _ => rfl, fun _ => rfl, fun _ => rfl, fun _ => rfl,
      fun _ _ => ⟨rfl, fun hx => nomatch hx⟩, fun _ _ => ⟨rfl, fun hx => nomatch hx⟩,
      fun _ _ => ⟨rfl, fun hx => nomatch hx⟩, fun _ _ => ⟨rfl, fun hx => nomatch hx⟩⟩
  rw [if_neg c2] at h
  by_cases c3 : pyStartswith (pyStrip l) "Answer:" = true
  · rw [if_pos c3] at h
    injection h with h'
    subst h'
    exact ⟨rfl, rfl, fun _ => rfl, fun _ => rfl, fun _ => rfl, fun _ => rfl,
      fun hf _ => absurd c3 (by simp [hf]), fun _ _ => ⟨rfl, fun hx => nomatch hx⟩,
      fun _ _ => ⟨rfl, fun hx => nomatch hx⟩, fun _ _ => ⟨rfl, fun hx => nomatch hx⟩⟩
  rw [if_neg c3] at h
  by_cases c4 : pyStartswith (pyStrip l) "Options:" = true
  · rw [if_pos c4] at h
    injection h with h'
    subst h'
    exact ⟨rfl, rfl, fun _ => rfl, fun _ => rfl, fun _ => rfl, fun _ => rfl,
      fun _ _ => ⟨rfl, fun hx => nomatch hx⟩, fun hf _ => absurd c4 (by simp [hf]),
      fun _ _ => ⟨rfl, fun hx => nomatch hx⟩, fun _ _ => ⟨rfl, fun hx => nomatch hx⟩⟩
  rw [if_neg c4] at h
  by_cases c5 : pyStartswith (pyStrip l) "Marks:" = true
  · rw [if_pos c5] at h
    cases hpi : pyInt (if pyStrip (pyReplace (pyStrip l) "Marks:" "") = "" then "1"
        else pyStrip (pyReplace (pyStrip l) "Marks:" "")) with
    | ok n =>
      rw [hpi] at h
      dsimp only at h
      injection h with h'
      subst h'
      exact ⟨rfl, rfl, fun _ => rfl, fun hf => absurd c5 (by simp [hf]), fun _ => rfl,
        fun _ => rfl, fun _ h2 => ⟨rfl, h2⟩, fun _ h2 => ⟨rfl, h2⟩,
        fun _ h2 => ⟨rfl, h2⟩, fun _ h2 => ⟨rfl, h2⟩⟩
    | error e =>
      rw [hpi] at h
      exact Except.noConfusion h
  rw [if_neg c5] at h
  by_cases c6 : pyStartswith (pyStrip l) "Concept:" = true
  · rw [if_pos c6] at h
    injection h with h'
    subst h'
    exact ⟨rfl, rfl, fun _ => rfl, fun _ => rfl, fun hf => absurd c6 (by simp [hf]),
      fun _ => rfl, fun _ h2 => ⟨rfl, h2⟩, fun _ h2 => ⟨rfl, h2⟩,
      fun _ h2 => ⟨rfl, h2⟩, fun _ h2 => ⟨rfl, h2⟩⟩
  rw [if_neg c6] at h
  by_cases c7 : pyStartswith (pyStrip l) "Difficulty:" = true
  · rw [if_pos c7] at h
    injection h with h'
    subst h'
    exact ⟨rfl, rfl, fun _ => rfl, fun _ => rfl, fun _ => rfl,
      fun hf => absurd c7 (by simp [hf]), fun _ h2 => ⟨rfl, h2⟩,
      fun _ h2 => ⟨rfl, h2⟩, fun _ h2 => ⟨rfl, h2⟩, fun _ h2 => ⟨rfl, h2⟩⟩
  rw [if_neg c7] at h
  by_cases c8 : pyStartswith (pyStrip l) "SourceText:" = true
  · rw [if_pos c8] at h
    injection h with h'
    subst h'
    exact ⟨rfl, rfl, fun _ => rfl, fun _ => rfl, fun _ => rfl, fun _ => rfl,
      fun _ _ => ⟨rfl, fun hx => nomatch hx⟩, fun _ _ => ⟨rfl, fun hx => nomatch hx⟩,
      fun hf _ => absurd c8 (by simp [hf]), fun _ _ => ⟨rfl, fun hx => nomatch hx⟩⟩
  rw [if_neg c8] at h
  by_cases c9 : pyStartswith (pyStrip l) "Events:" = true
  · rw [if_pos c9] at h
    injection h with h'
    subst h'
    exact ⟨rfl, rfl, fun _ => rfl, fun _ => rfl, fun _ => rfl, fun _ => rfl,
      fun _ _ => ⟨rfl, fun hx => nomatch hx⟩, fun _ _ => ⟨rfl, fun hx => nomatch hx⟩,
      fun _ _ => ⟨rfl, fun hx => nomatch hx⟩, fun hf _ => absurd c9 (by simp [hf])⟩
  rw [if_neg c9] at h
  cases hcf : st.current_field with
  | none0 =>
    rw [hcf] at h
    dsimp only at h
    injection h with h'
    subst h'
    exact ⟨rfl, rfl, fun _ => rfl, fun _ => rfl, fun _ => rfl, fun _ => rfl,
      fun _ _ => ⟨rfl, fun hx => nomatch (hcf.symm.trans hx)⟩,
      fun _ _ => ⟨rfl, fun hx => nomatch (hcf.symm.trans hx)⟩,
      fun _ _ => ⟨rfl, fun hx => nomatch (hcf.symm.trans hx)⟩,
      fun _ _ => ⟨rfl, fun hx => nomatch (hcf.symm.trans hx)⟩⟩
  | options =>
    rw [hcf] at h
    dsimp only at h
    by_cases cp : pyStartswith (pyStrip l) "(" = true
    · rw [if_pos cp] at h
      injection h with h'
      subst h'
      exact ⟨rfl, rfl, fun _ => rfl, fun _ => rfl, fun _ => rfl, fun _ => rfl,
        fun _ _ => ⟨rfl, fun hx => nomatch hx⟩,
        fun _ h2 => absurd rfl h2,
        fun _ _ => ⟨rfl, fun hx => nomatch hx⟩,
        fun _ _ => ⟨rfl, fun hx => nomatch hx⟩⟩
    · rw [if_neg cp] at h
      injection h with h'
      subst h'
      exact ⟨rfl, rfl, fun _ => rfl, fun _ => rfl, fun _ => rfl, fun _ => rfl,
        fun _ _ => ⟨rfl, fun hx => nomatch (hcf.symm.trans hx)⟩,
        fun _ h2 => absurd rfl h2,
        fun _ _ => ⟨rfl, fun hx => nomatch (hcf.symm.trans hx)⟩,
        fun _ _ => ⟨rfl, fun hx => nomatch (hcf.symm.trans hx)⟩⟩
  | text =>
    rw [hcf] at h
    dsimp only at h
    injection h with h'
    subst h'
    exact ⟨rfl, rfl, fun _ => rfl, fun _ => rfl, fun _ => rfl, fun _ => rfl,
      fun _ _ => ⟨rfl, fun hx => nomatch hx⟩,
      fun _ _ => ⟨rfl, fun hx => nomatch hx⟩,
      fun _ _ => ⟨rfl, fun hx => nomatch hx⟩,
      fun _ _ => ⟨rfl, fun hx => nomatch hx⟩⟩
  | answer =>
    rw [hcf] at h
    dsimp only at h
    injection h with h'
    subst h'
    exact ⟨rfl, rfl, fun _ => rfl, fun _ => rfl, fun _ => rfl, fun _ => rfl,
      fun _ h2 => absurd rfl h2,
      fun _ _ => ⟨rfl, fun hx => nomatch hx⟩,
      fun _ _ => ⟨rfl, fun hx => nomatch hx⟩,
      fun _ _ => ⟨rfl, fun hx => nomatch hx⟩⟩
  | sourceText =>
    rw [hcf] at h
    dsimp only at h
    injection h with h'
    subst h'
    exact ⟨rfl, rfl, fun _ => rfl, fun _ => rfl, fun _ => rfl, fun _ => rfl,
      fun _ _ => ⟨rfl, fun hx => nomatch hx⟩,
      fun _ _ => ⟨rfl, fun hx => nomatch hx⟩,
      fun _ h2 => absurd rfl h2,
      fun _ _ => ⟨rfl, fun hx => nomatch hx⟩⟩
  | events =>
    rw [hcf] at h
    dsimp only at h
    injection h with h'
    subst h'
    exact ⟨rfl, rfl, fun _ => rfl, fun _ => rfl, fun _ => rfl, fun _ => rfl,
      fun _ _ => ⟨rfl, fun hx => nomatch hx⟩,
      fun _ _ => ⟨rfl, fun hx => nomatch hx⟩,
      fun _ _ => ⟨rfl, fun hx => nomatch hx⟩,
      fun _ h2 => absurd rfl h2⟩

/-- A state predicate preserved by every successfully processed line that
does not carry the given field prefix is preserved by the whole line loop. -/
theorem processLines_pres (P : BlockState → Prop) (pre0 : String)
    (hstep : ∀ st st' l, processLine st l = .ok st' →
      pyStartswith (pyStrip l) pre0 = false → P st → P st') :
    ∀ (ls : List String) (st st' : BlockState),
      processLines st ls = .ok st' →
      (∀ l ∈ ls, pyStartswith (pyStrip l) pre0 = false) → P st → P st' := by
  intro ls
  induction ls with
  | nil =>
    intro st st' h _ hP
    simp only [processLines] at h
    injection h with h'
    exact h' ▸ hP
  | cons l ls ih =>
    intro st st' h hall hP
    simp only [processLines] at h
    cases hpl : processLine st l with
    | error e => rw [hpl] at h; exact Except.noConfusion h
    | ok st1 =>
      rw [hpl] at h
      exact ih st1 st' h (fun x hx => hall x (List.mem_cons_of_mem l hx))
        (hstep st st1 l hpl (hall l (List.mem_cons_self l ls)) hP)

/-- A state predicate preserved by every successfully processed line is
preserved by the whole line loop. -/
theorem processLines_pres_uncond (P : BlockState → Prop)
    (hstep : ∀ st st' l, processLine st l = .ok st' → P st → P st') :
    ∀ (ls : List String) (st st' : BlockState),
      processLines st ls = .ok st' → P st → P st' := by
  intro ls
  induction ls with
  | nil =>
    intro st st' h hP
    simp only [processLines] at h
    injection h with h'
    exact h' ▸ hP
  | cons l ls ih =>
    intro st st' h hP
    simp only [processLines] at h
    cases hpl : processLine st l with
    | error e => rw [hpl] at h; exact Except.noConfusion h
    | ok st1 =>
      rw [hpl] at h
      exact ih st1 st' h (hstep st st1 l hpl hP)

/-- C10: every returned record carries the full fixed field set of the
initial dict (lines 262-274) — by construction of `Question` — and each
field whose prefix occurs on no line of the block keeps its initial value:
`Type` keeps the `q_type` argument, `Answer`/`Concept`/`SourceText` keep
`""`, `Options`/`Events` keep `[]`, `Marks` keeps `1`, `Difficulty` keeps
`"Medium"`; `ColumnA` and `ColumnB` are `[]` unconditionally (no branch of
the parser ever writes them). -/
theorem c10_default_fields (block q_type : String) (q : Question)
    (h : parse_question_block block q_type = .ok (some q)) :
    ((∀ l ∈ pySplit block "\n", pyStartswith (pyStrip l) "Type:" = false) →
      q.Qtype = q_type) ∧
    ((∀ l ∈ pySplit block "\n", pyStartswith (pyStrip l) "Answer:" = false) →
      q.Answer = "") ∧
    ((∀ l ∈ pySplit block "\n", pyStartswith (pyStrip l) "Options:" = false) →
      q.Options = []) ∧
    ((∀ l ∈ pySplit block "\n", pyStartswith (pyStrip l) "Marks:" = false) →
      q.Marks = 1) ∧
    ((∀ l ∈ pySplit block "\n", pyStartswith (pyStrip l) "Difficulty:" = false) →
      q.Difficulty = "Medium") ∧
    ((∀ l ∈ pySplit block "\n", pyStartswith (pyStrip l) "Concept:" = false) →
      q.Concept = "") ∧
    ((∀ l ∈ pySplit block "\n", pyStartswith (pyStrip l) "SourceText:" = false) →
      q.SourceText = "") ∧
    ((∀ l ∈ pySplit block "\n", pyStartswith (pyStrip l) "Events:" = false) →
      q.Events = []) ∧
    q.ColumnA = [] ∧ q.ColumnB = [] := by
  obtain ⟨st, hp, hq, _⟩ := parse_ok_some_elim block q_type q h
  subst hq
  refine ⟨?_, ?_, ?_, ?_, ?_, ?_, ?_, ?_, ?_, ?_⟩
  · intro hall
    exact processLines_pres (fun s => s.question.Qtype = q_type) "Type:"
      (fun a b l hok hl hP => ((processLine_step a b l hok).2.2.1 hl).trans hP)
      (pySplit block "\n") _ st hp hall rfl
  · intro hall
    exact (processLines_pres
      (fun s => s.question.Answer = "" ∧ s.current_field ≠ CF.answer) "Answer:"
      (fun a b l hok hl hP =>
        ⟨((processLine_step a b l hok).2.2.2.2.2.2.1 hl hP.2).1.trans hP.1,
         ((processLine_step a b l hok).2.2.2.2.2.2.1 hl hP.2).2⟩)
      (pySplit block "\n") _ st hp hall ⟨rfl, fun hx => nomatch hx⟩).1
  · intro hall
    exact (processLines_pres
      (fun s => s.question.Options = [] ∧ s.current_field ≠ CF.options) "Options:"
      (fun a b l hok hl hP =>
        ⟨((processLine_step a b l hok).2.2.2.2.2.2.2.1 hl hP.2).1.trans hP.1,
         ((processLine_step a b l hok).2.2.2.2.2.2.2.1 hl hP.2).2⟩)
      (pySplit block "\n") _ st hp hall ⟨rfl, fun hx => nomatch hx⟩).1
  · intro hall
    exact processLines_pres (fun s => s.question.Marks = 1) "Marks:"
      (fun a b l hok hl hP => ((processLine_step a b l hok).2.2.2.1 hl).trans hP)
      (pySplit block "\n") _ st hp hall rfl
  · intro hall
    exact processLines_pres (fun s => s.question.Difficulty = "Medium") "Difficulty:"
      (fun a b l hok hl hP => ((processLine_step a b l hok).2.2.2.2.2.1 hl).trans hP)
      (pySplit block "\n") _ st hp hall rfl
  · intro hall
    exact processLines_pres (fun s => s.question.Concept = "") "Concept:"
      (fun a b l hok hl hP => ((processLine_step a b l hok).2.2.2.2.1 hl).trans hP)
      (pySplit block "\n") _ st hp hall rfl
  · intro hall
    exact (processLines_pres
      (fun s => s.question.SourceText = "" ∧ s.current_field ≠ CF.sourceText) "SourceText:"
      (fun a b l hok hl hP =>
        ⟨((processLine_step a b l hok).2.2.2.2.2.2.2.2.1 hl hP.2).1.trans hP.1,
         ((processLine_step a b l hok).2.2.2.2.2.2.2.2.1 hl hP.2).2⟩)
      (pySplit block "\n") _ st hp hall ⟨rfl, fun hx => nomatch hx⟩).1
  · intro hall
    exact (processLines_pres
      (fun s => s.question.Events = [] ∧ s.current_field ≠ CF.events) "Events:"
      (fun a b l hok hl hP =>
        ⟨((processLine_step a b l hok).2.2.2.2.2.2.2.2.2 hl hP.2).1.trans hP.1,
         ((processLine_step a b l hok).2.2.2.2.2.2.2.2.2 hl hP.2).2⟩)
      (pySplit block "\n") _ st hp hall ⟨rfl, fun hx => nomatch hx⟩).1
  · exact (processLines_pres_uncond
      (fun s => s.question.ColumnA = [] ∧ s.question.ColumnB = [])
      (fun a b l hok hP => ⟨(processLine_step a b l hok).1.trans hP.1,
        (processLine_step a b l hok).2.1.trans hP.2⟩)
      (pySplit block "\n") _ st hp ⟨rfl, rfl⟩).1
  · exact (processLines_pres_uncond
      (fun s => s.question.ColumnA = [] ∧ s.question.ColumnB = [])
      (fun a b l hok hP => ⟨(processLine_step a b l hok).1.trans hP.1,
        (processLine_step a b l hok).2.1.trans hP.2⟩)
      (pySplit block "\n") _ st hp ⟨rfl, rfl⟩).2

/-- C10, witness: a block providing only a `Text:` line yields a record with
every other field at its default. -/
theorem c10_witness :
    ({ initQuestion "mcq" with Text := "What is federalism?" } : Question).Qtype = "mcq" ∧
    ({ initQuestion "mcq" with Text := "What is federalism?" } : Question).Answer = "" ∧
    ({ initQuestion "mcq" with Text := "What is federalism?" } : Question).Options = [] ∧
    ({ initQuestion "mcq" with Text := "What is federalism?" } : Question).Marks = 1 ∧
    ({ initQuestion "mcq" with Text := "What is federalism?" } : Question).Difficulty = "Medium" ∧
    ({ initQuestion "mcq" with Text := "What is federalism?" } : Question).Concept = "" ∧
    ({ initQuestion "mcq" with Text := "What is federalism?" } : Question).SourceText = "" ∧
    ({ initQuestion "mcq" with Text := "What is federalism?" } : Question).Events = [] ∧
    ({ initQuestion "mcq" with Text := "What is federalism?" } : Question).ColumnA = [] ∧
    ({ initQuestion "mcq" with Text := "What is federalism?" } : Question).ColumnB = [] := by
  have h := c10_default_fields "Text: What is federalism?" "mcq"
    { initQuestion "mcq" with Text := "What is federalism?" } rfl
  exact ⟨h.1 (by decide), h.2.1 (by decide), h.2.2.1 (by decide), h.2.2.2.1 (by decide),
    h.2.2.2.2.1 (by decide), h.2.2.2.2.2.1 (by decide), h.2.2.2.2.2.2.1 (by decide),
    h.2.2.2.2.2.2.2.1 (by decide), h.2.2.2.2.2.2.2.2.1, h.2.2.2.2.2.2.2.2.2⟩

end CbseQA
